import Mathlib

/-!
Shallow embedding of the submission-form client (`SubmissionForm.handleSubmit`)
and the Supabase client wrapper (`src/lib/supabase.ts`, plus the variant wrapper
with the mock fallback client) of the clever-questions repository.

Platform effects (the Supabase SDK, `localStorage`, `JSON.parse`, `Date`) are
modelled as explicit parameters:
  * `storage : Option String` is the value of `localStorage.getItem("aceInApril_user")`;
  * `parse : String → Option User` models `JSON.parse` on that value
    (`some` = parse succeeded, `none` = `JSON.parse` threw);
  * a `Client` record carries the results of the network operations
    `storage.from(bucket).upload`, `storage.from(bucket).getPublicUrl` and
    `from(table).insert(...).select().single()`;
  * `today : String` models `new Date().toISOString().split("T")[0]` and
    `nowMs : Nat` models `Date.now()`.
Each run is summarised by the ordered list of observable events (helper calls,
SDK calls, toasts, navigations) together with the final value of the
`isSubmitting` flag.
-/

namespace CleverQuestions

/-- The cached current user, as consumed by the wrapper (`user.id` is the only
field this code reads). -/
structure User where
  id : String
deriving Repr, DecidableEq

/-- A file selected in the form: its `name` is read by `handleSubmit`; the
`content` is opaque payload passed through to the upload. -/
structure File where
  name : String
  content : String
deriving Repr, DecidableEq

/-- A JSON-ish field value of a submission row: a string or `null`. -/
inductive JValue where
  | str : String → JValue
  | null : JValue
deriving Repr, DecidableEq

/-- A JS object (a submission record / database row), modelled as an
association list with distinct keys, in insertion order. -/
abbrev Record := List (String × JValue)

/-- Field lookup on a record (JS property access): the value at the first
occurrence of the key, if any. -/
def getField (r : Record) (k : String) : Option JValue :=
  match r with
  | [] => none
  | p :: rest => if p.1 = k then some p.2 else getField rest k

/-- JS object spread `{...r, k: v}`: if `k` is already a key of `r` its value
is replaced in place, otherwise `(k, v)` is appended at the end. -/
def jsSpread (r : Record) (k : String) (v : JValue) : Record :=
  match r with
  | [] => [(k, v)]
  | p :: rest => if p.1 = k then (k, v) :: rest else p :: jsSpread rest k v

/-- Options passed to `storage.upload` (`{ cacheControl: "3600", upsert: false }`). -/
structure UploadOpts where
  cacheControl : String
  upsert : Bool
deriving Repr, DecidableEq

/-- Result of a platform (SDK) call: `ok data` or `err message`, modelling the
`{ data, error }` shape of the SDK responses. -/
inductive PResult (α : Type) where
  | ok : α → PResult α
  | err : String → PResult α
deriving Repr

/-- The connected Supabase client, abstracted by the outcomes of the three SDK
operations this code performs. -/
structure Client where
  storageUpload : String → String → File → UploadOpts → PResult Unit
  storageGetPublicUrl : String → String → String
  tableInsert : String → Record → PResult Record

/-- Observable events of a run, in order of occurrence. -/
inductive Event where
  | uploadFileCall : String → Event
  | storageUploadCall : String → String → UploadOpts → Event
  | getPublicUrlCall : String → String → Event
  | createSubmissionCall : Record → Event
  | tableInsertCall : String → Record → Event
  | toast : String → Event
  | onSuccessCall : Event
  | navigate : String → Event
deriving Repr, DecidableEq

/-- Function `getCurrentUser` from the wrapper: reads the `aceInApril_user` key; returns
`null` when the key is absent; otherwise `JSON.parse`s it inside a try/catch,
returning the parsed user on success and `null` if parsing throws. -/
def getCurrentUser (storage : Option String) (parse : String → Option User) : Option User :=
  match storage with
  | none => none
  | some userString =>
    match parse userString with
    | some u => some u
    | none => none

/-- The value returned by a successful `uploadFile`: `{ path: fileName, url: urlData.publicUrl }`. -/
structure UploadResult where
  path : String
  url : String
deriving Repr, DecidableEq

/-- Function `uploadFile(file, fileName)` from the wrapper. Throws `"No user found"`
when no cached user exists; otherwise uploads to bucket `"submissions"` under
`fileName` with `cacheControl "3600"` and `upsert false`; on an SDK error
throws `"Failed to upload file: <message>"`; on success fetches the public URL
and returns `{ path := fileName, url := publicUrl }`. The first component is
the list of SDK calls made. -/
def uploadFile (client : Client) (storage : Option String) (parse : String → Option User)
    (file : File) (fileName : String) : List Event × Except String UploadResult :=
  match getCurrentUser storage parse with
  | none => ([], Except.error "No user found")
  | some _ =>
    match client.storageUpload "submissions" fileName file { cacheControl := "3600", upsert := false } with
    | PResult.err msg =>
      ([Event.storageUploadCall "submissions" fileName { cacheControl := "3600", upsert := false }],
        Except.error ("Failed to upload file: " ++ msg))
    | PResult.ok _ =>
      ([Event.storageUploadCall "submissions" fileName { cacheControl := "3600", upsert := false },
        Event.getPublicUrlCall "submissions" fileName],
        Except.ok { path := fileName, url := client.storageGetPublicUrl "submissions" fileName })

/-- Function `createSubmission(submission)` from the wrapper. Throws `"No user found"`
when no cached user exists; otherwise inserts `{ ...submission, user_id: user.id }`
into the `"submissions"` table; on an SDK error throws
`"Submission failed: <message>"`; on success returns the persisted row. -/
def createSubmission (client : Client) (storage : Option String) (parse : String → Option User)
    (submission : Record) : List Event × Except String Record :=
  match getCurrentUser storage parse with
  | none => ([], Except.error "No user found")
  | some user =>
    match client.tableInsert "submissions" (jsSpread submission "user_id" (JValue.str user.id)) with
    | PResult.err msg =>
      ([Event.tableInsertCall "submissions" (jsSpread submission "user_id" (JValue.str user.id))],
        Except.error ("Submission failed: " ++ msg))
    | PResult.ok data =>
      ([Event.tableInsertCall "submissions" (jsSpread submission "user_id" (JValue.str user.id))],
        Except.ok data)

/-- The file name built by `handleSubmit`: `` `${user.id}_${Date.now()}_${file.name}` ``. -/
def submitFileName (userId : String) (nowMs : Nat) (fname : String) : String :=
  userId ++ "_" ++ toString nowMs ++ "_" ++ fname

/-- Outcome of one run of `handleSubmit`: the ordered event trace and the final
value of the `isSubmitting` flag. -/
structure SubmitResult where
  events : List Event
  isSubmitting : Bool
deriving Repr

/-- The record literal passed by `handleSubmit` to `createSubmission`:
`date` is today, `message` the form text, `file_url` the uploaded public URL
or `null` when no file was selected. -/
def submissionRecord (message : String) (fileUrl : Option String) (today : String) : Record :=
  [("date", JValue.str today), ("message", JValue.str message),
    ("file_url", match fileUrl with | none => JValue.null | some s => JValue.str s)]

/-- The tail of `handleSubmit` after the optional upload: builds the submission
record via `submissionRecord`, awaits `createSubmission`, and on success
toasts, fires the optional `onSuccess` callback and navigates to `"/"`; a
thrown error is caught by the outer catch (toast `"Submission failed"`) and
the `finally` clause resets `isSubmitting` to `false` either way. `ev0` are
the events already emitted by the upload phase. -/
def finishSubmit (client : Client) (storage : Option String) (parse : String → Option User)
    (message : String) (fileUrl : Option String) (today : String) (onSuccess : Bool)
    (ev0 : List Event) : SubmitResult :=
  match createSubmission client storage parse (submissionRecord message fileUrl today) with
  | (ev, Except.error _) =>
    { events := ev0 ++ Event.createSubmissionCall (submissionRecord message fileUrl today) :: ev
        ++ [Event.toast "Submission failed"],
      isSubmitting := false }
  | (ev, Except.ok _) =>
    { events := ev0 ++ Event.createSubmissionCall (submissionRecord message fileUrl today) :: ev
        ++ Event.toast "Submission successful"
          :: (if onSuccess then [Event.onSuccessCall] else []) ++ [Event.navigate "/"],
      isSubmitting := false }

/-- Function `handleSubmit` of the form component. With no authenticated `user` it
toasts `"Not logged in"`, navigates to `"/login"` and returns (the flag keeps
its initial value `isSubmitting0`). Otherwise it sets the flag, uploads the
selected file (if any) under `submitFileName` — an upload error toasts
`"File upload failed"` and returns with the flag reset — then runs
`finishSubmit` with the uploaded public URL (or `null` when no file). -/
def handleSubmit (client : Client) (storage : Option String) (parse : String → Option User)
    (user : Option User) (message : String) (file : Option File)
    (today : String) (nowMs : Nat) (onSuccess : Bool) (isSubmitting0 : Bool) : SubmitResult :=
  match user with
  | none =>
    { events := [Event.toast "Not logged in", Event.navigate "/login"],
      isSubmitting := isSubmitting0 }
  | some u =>
    match file with
    | none => finishSubmit client storage parse message none today onSuccess []
    | some f =>
      match uploadFile client storage parse f (submitFileName u.id nowMs f.name) with
      | (ev, Except.error _) =>
        { events := Event.uploadFileCall (submitFileName u.id nowMs f.name) :: ev
            ++ [Event.toast "File upload failed"],
          isSubmitting := false }
      | (ev, Except.ok r) =>
        finishSubmit client storage parse message (some r.url) today onSuccess
          (Event.uploadFileCall (submitFileName u.id nowMs f.name) :: ev)

/-! ### The variant client setup (`createSupabaseClient` with mock fallback) -/

/-- Response of a mock-client operation: the optional `error.message` field and
the optional `data.publicUrl` field of the returned object. -/
structure StubResponse where
  errorMessage : Option String
  publicUrl : Option String
deriving Repr, DecidableEq

/-- The fixed `{ data: null, error: { message: "Supabase configuration error" } }`
response. -/
def configErrorResponse : StubResponse :=
  { errorMessage := some "Supabase configuration error", publicUrl := none }

/-- The table half of the mock client (`from: () => ({ select, insert, update,
delete, eq })`). -/
structure MockTable where
  select : StubResponse
  insert : StubResponse
  update : StubResponse
  delete : StubResponse
  eq : StubResponse
deriving Repr, DecidableEq

/-- The storage half of the mock client (`storage.from: () => ({ upload,
getPublicUrl })`). -/
structure MockStorage where
  upload : StubResponse
  getPublicUrl : StubResponse
deriving Repr, DecidableEq

/-- The mock client returned when URL validation fails: every table operation
and `upload` return the fixed configuration-error response, while
`getPublicUrl` returns `{ data: { publicUrl: "" } }` (no error field) and
`functions.setAuth` is a no-op (not modelled: it returns nothing). -/
structure MockClient where
  tableFrom : MockTable
  storageFrom : MockStorage
deriving Repr, DecidableEq

/-- The concrete mock client object built in the catch branch of
`createSupabaseClient`. -/
def mockClient : MockClient :=
  { tableFrom :=
      { select := configErrorResponse, insert := configErrorResponse,
        update := configErrorResponse, delete := configErrorResponse,
        eq := configErrorResponse },
    storageFrom :=
      { upload := configErrorResponse,
        getPublicUrl := { errorMessage := none, publicUrl := some "" } } }

/-- What `createSupabaseClient` returns: a real connected client or the mock. -/
inductive SupabaseClient where
  | real : String → String → SupabaseClient
  | mock : MockClient → SupabaseClient
deriving Repr, DecidableEq

/-- The variant `createSupabaseClient`: `urlValid` models whether
`new URL(supabaseUrl)` succeeds (platform URL validation). On success it
creates the real client; when `new URL` throws, the catch branch returns
`mockClient` instead of propagating the exception. -/
def createSupabaseClient (urlValid : Bool) (supabaseUrl supabaseAnonKey : String) :
    SupabaseClient :=
  if urlValid then SupabaseClient.real supabaseUrl supabaseAnonKey
  else SupabaseClient.mock mockClient

/-! ### Concrete instances used by the witnesses -/

/-- A cached-user string whose parse yields the user `u1`. -/
def demoStorage : Option String := some "\x7b\"id\":\"u1\"\x7d"

/-- A concrete stand-in for `JSON.parse`: succeeds exactly on `demoStorage`. -/
def demoParse : String → Option User :=
  fun s => if s = "\x7b\"id\":\"u1\"\x7d" then some { id := "u1" } else none

/-- A client whose SDK calls all succeed; the public URL is the bucket URL of
the object name. -/
def okClient : Client :=
  { storageUpload := fun _ _ _ _ => PResult.ok ()
    storageGetPublicUrl := fun bucket name =>
      "https://example.supabase.co/storage/v1/object/public/" ++ bucket ++ "/" ++ name
    tableInsert := fun _ row => PResult.ok row }

/-- A client whose storage upload fails with `"Bucket not found"` and whose
insert fails with `"permission denied"`. -/
def errClient : Client :=
  { storageUpload := fun _ _ _ _ => PResult.err "Bucket not found"
    storageGetPublicUrl := fun _ _ => ""
    tableInsert := fun _ _ => PResult.err "permission denied" }

/-- The concrete selected file used by the witnesses. -/
def solFile : File := { name := "sol.txt", content := "print(42)" }

/-- Predicate: `sub` occurs as a contiguous substring of `s` (stated on the underlying
character lists). -/
def strContains (s sub : String) : Prop :=
  List.IsInfix sub.data s.data

/-! ### Helper lemmas -/

/-- Looking up the spread key after `{...r, k: v}` always yields `v`. -/
theorem getField_jsSpread (r : Record) (k : String) (v : JValue) :
    getField (jsSpread r k v) k = some v := by
  induction r with
  | nil => simp [jsSpread, getField]
  | cons p rest ih =>
    by_cases h : p.1 = k
    · simp [jsSpread, h, getField]
    · simpa [jsSpread, h, getField] using ih

/-- Looking up any other key after `{...r, k: v}` is lookup in `r`. -/
theorem getField_jsSpread_ne (r : Record) (k k2 : String) (v : JValue) (h : k2 ≠ k) :
    getField (jsSpread r k v) k2 = getField r k2 := by
  have hne : k ≠ k2 := Ne.symm h
  induction r with
  | nil => simp [jsSpread, getField, hne]
  | cons p rest ih =>
    by_cases hp : p.1 = k
    · subst hp
      simp [jsSpread, getField, hne]
    · by_cases hp2 : p.1 = k2
      · simp [jsSpread, hp, getField, hp2, h]
      · simpa [jsSpread, hp, getField, hp2, h] using ih

/-- The SDK calls made by `uploadFile` take one of three shapes, depending on
where the call stops. -/
theorem uploadFile_events_shape (client : Client) (storage : Option String)
    (parse : String → Option User) (f : File) (fileName : String) :
    (uploadFile client storage parse f fileName).1 = []
    ∨ (uploadFile client storage parse f fileName).1
        = [Event.storageUploadCall "submissions" fileName { cacheControl := "3600", upsert := false }]
    ∨ (uploadFile client storage parse f fileName).1
        = [Event.storageUploadCall "submissions" fileName { cacheControl := "3600", upsert := false },
           Event.getPublicUrlCall "submissions" fileName] := by
  unfold uploadFile
  rcases hg : getCurrentUser storage parse with _ | u
  · simp
  · rcases hs : client.storageUpload "submissions" fileName f { cacheControl := "3600", upsert := false }
      with d | m
    · simp [hs]
    · simp [hs]

/-- With no cached user, `createSubmission` throws before any SDK call. -/
theorem createSubmission_none (client : Client) (storage : Option String)
    (parse : String → Option User) (submission : Record)
    (h : getCurrentUser storage parse = none) :
    createSubmission client storage parse submission = ([], Except.error "No user found") := by
  unfold createSubmission
  rw [h]

/-- With a cached user, `createSubmission` makes exactly one insert call, with
the user-id-tagged row. -/
theorem createSubmission_events (client : Client) (storage : Option String)
    (parse : String → Option User) (submission : Record) (u : User)
    (hu : getCurrentUser storage parse = some u) :
    (createSubmission client storage parse submission).1
      = [Event.tableInsertCall "submissions" (jsSpread submission "user_id" (JValue.str u.id))] := by
  simp only [createSubmission, hu]
  rcases h2 : client.tableInsert "submissions" (jsSpread submission "user_id" (JValue.str u.id))
    with d | m <;> simp [h2]

/-- With an authenticated user and a selected file, the run trace starts with
the `uploadFile` call for the generated file name. -/
theorem handleSubmit_head (client : Client) (storage : Option String)
    (parse : String → Option User) (u : User) (message : String) (f : File)
    (today : String) (nowMs : Nat) (onSuccess b0 : Bool) :
    ∃ rest,
      (handleSubmit client storage parse (some u) message (some f) today nowMs onSuccess b0).events
        = Event.uploadFileCall (submitFileName u.id nowMs f.name) :: rest := by
  unfold handleSubmit
  rcases hup : uploadFile client storage parse f (submitFileName u.id nowMs f.name)
    with ⟨ev, _ | r⟩
  · exact ⟨ev ++ [Event.toast "File upload failed"], by simp [hup]⟩
  · simp only [hup]
    unfold finishSubmit
    rcases hcs : createSubmission client storage parse
        (submissionRecord message (some r.url) today) with ⟨ev2, _ | d⟩
    · simp only [hcs]
      exact ⟨_, rfl⟩
    · simp only [hcs]
      exact ⟨_, rfl⟩

/-! ### Claims -/

/-- Claim C6: every call to `uploadFile` and to `createSubmission` fails with
`"No user found"` when no cached current user exists, and when the platform
call returns an error it fails with a message incorporating the platform
error's message (`"Failed to upload file: <msg>"` resp.
`"Submission failed: <msg>"`). -/
theorem c6_descriptive_errors (client : Client) (storage : Option String)
    (parse : String → Option User) (f : File) (fileName : String) (rec : Record)
    (msg : String) :
    (getCurrentUser storage parse = none →
        (uploadFile client storage parse f fileName).2 = Except.error "No user found"
      ∧ (createSubmission client storage parse rec).2 = Except.error "No user found")
    ∧ (∀ u, getCurrentUser storage parse = some u →
        (client.storageUpload "submissions" fileName f { cacheControl := "3600", upsert := false }
            = PResult.err msg →
          (uploadFile client storage parse f fileName).2
            = Except.error ("Failed to upload file: " ++ msg))
      ∧ (client.tableInsert "submissions" (jsSpread rec "user_id" (JValue.str u.id))
            = PResult.err msg →
          (createSubmission client storage parse rec).2
            = Except.error ("Submission failed: " ++ msg))) := by
  constructor
  · intro h
    exact ⟨by simp [uploadFile, h], by simp [createSubmission, h]⟩
  · intro u hu
    constructor
    · intro hs
      simp [uploadFile, hu, hs]
    · intro hi
      simp [createSubmission, hu, hi]

/-- Witness for C6 at concrete inputs: empty storage yields `"No user found"`
from both helpers; with the cached user `u1` and a failing platform, the
messages incorporate the platform errors. -/
theorem c6_descriptive_errors_witness :
    ((uploadFile errClient none demoParse solFile "n.txt").2 = Except.error "No user found"
      ∧ (createSubmission errClient none demoParse []).2 = Except.error "No user found")
    ∧ (uploadFile errClient demoStorage demoParse solFile "n.txt").2
        = Except.error "Failed to upload file: Bucket not found"
    ∧ (createSubmission errClient demoStorage demoParse []).2
        = Except.error "Submission failed: permission denied" :=
  ⟨(c6_descriptive_errors errClient none demoParse solFile "n.txt" [] "x").1 rfl,
    ((c6_descriptive_errors errClient demoStorage demoParse solFile "n.txt" []
        "Bucket not found").2 { id := "u1" } rfl).1 rfl,
    ((c6_descriptive_errors errClient demoStorage demoParse solFile "n.txt" []
        "permission denied").2 { id := "u1" } rfl).2 rfl⟩

/-- Claim C7: with a cached current user, `uploadFile file fileName` performs
the storage upload in the fixed bucket `"submissions"` under the
caller-provided `fileName` with `upsert := false` (overwrite disallowed), and
on success returns the stored path (equal to `fileName`) together with the
bucket's public URL for that name. -/
theorem c7_upload_contract (client : Client) (storage : Option String)
    (parse : String → Option User) (u : User) (f : File) (fileName : String)
    (hu : getCurrentUser storage parse = some u)
    (hok : client.storageUpload "submissions" fileName f
        { cacheControl := "3600", upsert := false } = PResult.ok ()) :
    uploadFile client storage parse f fileName
      = ([Event.storageUploadCall "submissions" fileName
            { cacheControl := "3600", upsert := false },
          Event.getPublicUrlCall "submissions" fileName],
         Except.ok { path := fileName,
                     url := client.storageGetPublicUrl "submissions" fileName }) := by
  unfold uploadFile
  rw [hu, hok]

/-- Witness for C7: the successful client stores `u1_0_sol.txt` and returns
the path and the bucket public URL for it. -/
theorem c7_upload_contract_witness :
    uploadFile okClient demoStorage demoParse solFile "u1_0_sol.txt"
      = ([Event.storageUploadCall "submissions" "u1_0_sol.txt"
            { cacheControl := "3600", upsert := false },
          Event.getPublicUrlCall "submissions" "u1_0_sol.txt"],
         Except.ok { path := "u1_0_sol.txt",
                     url := "https://example.supabase.co/storage/v1/object/public/submissions/u1_0_sol.txt" }) :=
  c7_upload_contract okClient demoStorage demoParse { id := "u1" } solFile "u1_0_sol.txt" rfl rfl

/-- Claim C9: `getCurrentUser` is total: it returns `null` when the storage
key is absent, the parsed user when the stored string parses, and `null`
(rather than propagating the exception) when parsing fails. -/
theorem c9_getCurrentUser_total (parse : String → Option User) (s : String) (u : User) :
    getCurrentUser none parse = none
    ∧ (parse s = some u → getCurrentUser (some s) parse = some u)
    ∧ (parse s = none → getCurrentUser (some s) parse = none) := by
  refine ⟨rfl, fun h => ?_, fun h => ?_⟩ <;> simp [getCurrentUser, h]

/-- Witness for C9 at concrete storage states: absent key, a parsable user
string, and an unparsable string. -/
theorem c9_getCurrentUser_total_witness :
    getCurrentUser none demoParse = none
    ∧ getCurrentUser demoStorage demoParse = some { id := "u1" }
    ∧ getCurrentUser (some "not json") demoParse = none :=
  ⟨(c9_getCurrentUser_total demoParse "x" { id := "u1" }).1,
    (c9_getCurrentUser_total demoParse "\x7b\"id\":\"u1\"\x7d" { id := "u1" }).2.1 (by decide),
    (c9_getCurrentUser_total demoParse "not json" { id := "u1" }).2.2 (by decide)⟩

/-- Claim C10: every row handed to the database insert by `createSubmission`
carries `user_id` equal to the cached current user's id, overriding any
`user_id` field of the input record. -/
theorem c10_user_id_override (client : Client) (storage : Option String)
    (parse : String → Option User) (u : User) (submission : Record)
    (hu : getCurrentUser storage parse = some u) :
    ∀ table row,
      Event.tableInsertCall table row ∈ (createSubmission client storage parse submission).1 →
        getField row "user_id" = some (JValue.str u.id) := by
  intro table row hmem
  rw [createSubmission_events client storage parse submission u hu] at hmem
  simp only [List.mem_singleton, Event.tableInsertCall.injEq] at hmem
  rw [hmem.2]
  exact getField_jsSpread submission "user_id" (JValue.str u.id)

/-- Witness for C10: a record that tries to attribute the submission to
`mallory` is inserted with `user_id = "u1"`, the cached user. -/
theorem c10_user_id_override_witness :
    getField (jsSpread [("user_id", JValue.str "mallory"), ("message", JValue.str "hi")]
        "user_id" (JValue.str "u1")) "user_id" = some (JValue.str "u1") :=
  c10_user_id_override okClient demoStorage demoParse { id := "u1" }
    [("user_id", JValue.str "mallory"), ("message", JValue.str "hi")] rfl
    "submissions"
    (jsSpread [("user_id", JValue.str "mallory"), ("message", JValue.str "hi")]
      "user_id" (JValue.str "u1"))
    (by simp [createSubmission, getCurrentUser, demoStorage, demoParse, okClient])

/-- Claim C8 as stated is false: the stub client returned for an invalid URL
has an operation — `storage.from(...).getPublicUrl` — whose response carries
no error at all: it is `{ data: { publicUrl: "" } }`, not the fixed
configuration-error response. -/
theorem c8_counterexample :
    createSupabaseClient false "not a url" "anon" = SupabaseClient.mock mockClient
    ∧ mockClient.storageFrom.getPublicUrl = { errorMessage := none, publicUrl := some "" }
    ∧ ¬ mockClient.storageFrom.getPublicUrl.errorMessage = some "Supabase configuration error" :=
  ⟨rfl, rfl, by simp [mockClient]⟩

/-- Claim C8 (amended): in the variant client setup an invalid connection URL
makes client creation return the stub client instead of throwing; every table
operation (`select`, `insert`, `update`, `delete`, `eq`) and the storage
`upload` of the stub return the fixed configuration-error response with error
message `"Supabase configuration error"`, while `getPublicUrl` returns an
empty public URL with no error (and `functions.setAuth` is a no-op). -/
theorem c8_stub_client (url anonKey : String) :
    createSupabaseClient false url anonKey = SupabaseClient.mock mockClient
    ∧ mockClient.tableFrom.select = configErrorResponse
    ∧ mockClient.tableFrom.insert = configErrorResponse
    ∧ mockClient.tableFrom.update = configErrorResponse
    ∧ mockClient.tableFrom.delete = configErrorResponse
    ∧ mockClient.tableFrom.eq = configErrorResponse
    ∧ mockClient.storageFrom.upload = configErrorResponse
    ∧ configErrorResponse.errorMessage = some "Supabase configuration error"
    ∧ mockClient.storageFrom.getPublicUrl = { errorMessage := none, publicUrl := some "" } :=
  ⟨rfl, rfl, rfl, rfl, rfl, rfl, rfl, rfl, rfl⟩

/-- Claim C3: a submit run with no current user never calls `uploadFile` or
`createSubmission` and always redirects to the login route; and
`createSubmission` itself enforces the invariant by throwing (making no insert
call) whenever no cached user snapshot is found. -/
theorem c3_no_user_redirect (client : Client) (storage : Option String)
    (parse : String → Option User) (message : String) (file : Option File)
    (today : String) (nowMs : Nat) (onSuccess b0 : Bool) (rec : Record) :
    (handleSubmit client storage parse none message file today nowMs onSuccess b0).events
        = [Event.toast "Not logged in", Event.navigate "/login"]
    ∧ (∀ fn, Event.uploadFileCall fn
        ∉ (handleSubmit client storage parse none message file today nowMs onSuccess b0).events)
    ∧ (∀ r, Event.createSubmissionCall r
        ∉ (handleSubmit client storage parse none message file today nowMs onSuccess b0).events)
    ∧ (getCurrentUser storage parse = none →
        (createSubmission client storage parse rec).2 = Except.error "No user found"
        ∧ (createSubmission client storage parse rec).1 = []) := by
  refine ⟨rfl, fun fn => by simp [handleSubmit], fun r => by simp [handleSubmit], fun h => ?_⟩
  rw [createSubmission_none client storage parse rec h]
  exact ⟨rfl, rfl⟩

/-- Witness for C3: with empty local storage and no authenticated user, the
run only toasts and redirects, and `createSubmission` would throw. -/
theorem c3_no_user_redirect_witness :
    (handleSubmit okClient none demoParse none "hello" (some solFile) "2026-10-11" 0 false false).events
        = [Event.toast "Not logged in", Event.navigate "/login"]
    ∧ (createSubmission okClient none demoParse []).2 = Except.error "No user found"
    ∧ (createSubmission okClient none demoParse []).1 = [] :=
  ⟨(c3_no_user_redirect okClient none demoParse "hello" (some solFile) "2026-10-11" 0 false false []).1,
    (c3_no_user_redirect okClient none demoParse "hello" (some solFile) "2026-10-11" 0 false false []).2.2.2 rfl⟩

/-- Claim C4: in every submit run (with an authenticated user) in which
`uploadFile` rejects or the run's `createSubmission` call rejects,
`handleSubmit` terminates with the `isSubmitting` flag back at `false`. -/
theorem c4_flag_idle (client : Client) (storage : Option String)
    (parse : String → Option User) (u : User) (message : String) (file : Option File)
    (today : String) (nowMs : Nat) (onSuccess b0 : Bool)
    (_hfail : (∃ f msg, file = some f
          ∧ (uploadFile client storage parse f (submitFileName u.id nowMs f.name)).2
              = Except.error msg)
        ∨ (∃ rec msg, Event.createSubmissionCall rec
              ∈ (handleSubmit client storage parse (some u) message file today nowMs onSuccess b0).events
            ∧ (createSubmission client storage parse rec).2 = Except.error msg)) :
    (handleSubmit client storage parse (some u) message file today nowMs onSuccess b0).isSubmitting
      = false := by
  clear _hfail
  unfold handleSubmit
  rcases file with _ | f
  · unfold finishSubmit
    rcases hcs : createSubmission client storage parse (submissionRecord message none today)
      with ⟨ev2, _ | d⟩ <;> simp [hcs]
  · rcases hup : uploadFile client storage parse f (submitFileName u.id nowMs f.name)
      with ⟨ev, _ | r⟩
    · simp [hup]
    · simp only [hup]
      unfold finishSubmit
      rcases hcs : createSubmission client storage parse (submissionRecord message (some r.url) today)
        with ⟨ev2, _ | d⟩ <;> simp [hcs]

/-- Witness for C4: with the failing client the upload rejects and the run
ends with the flag idle. -/
theorem c4_flag_idle_witness :
    (handleSubmit errClient demoStorage demoParse (some { id := "u1" }) "hello" (some solFile)
        "2026-10-11" 0 false false).isSubmitting = false :=
  c4_flag_idle errClient demoStorage demoParse { id := "u1" } "hello" (some solFile)
    "2026-10-11" 0 false false
    (Or.inl ⟨solFile, "Failed to upload file: Bucket not found", rfl, rfl⟩)

/-- Claim C5: a submit run with an authenticated user and no selected file
never calls `uploadFile` (nor the SDK storage upload) and calls
`createSubmission` with a record whose `file_url` is `null`. -/
theorem c5_no_file_null_url (client : Client) (storage : Option String)
    (parse : String → Option User) (u : User) (message : String)
    (today : String) (nowMs : Nat) (onSuccess b0 : Bool) :
    (∀ fn, Event.uploadFileCall fn
        ∉ (handleSubmit client storage parse (some u) message none today nowMs onSuccess b0).events)
    ∧ (∀ bucket fn opts, Event.storageUploadCall bucket fn opts
        ∉ (handleSubmit client storage parse (some u) message none today nowMs onSuccess b0).events)
    ∧ (∃ rec, Event.createSubmissionCall rec
          ∈ (handleSubmit client storage parse (some u) message none today nowMs onSuccess b0).events
        ∧ getField rec "file_url" = some JValue.null) := by
  unfold handleSubmit finishSubmit
  rcases hg : getCurrentUser storage parse with _ | w
  · rw [createSubmission_none client storage parse (submissionRecord message none today) hg]
    refine ⟨fun fn => by simp, fun bucket fn opts => by simp, ⟨submissionRecord message none today, by simp, rfl⟩⟩
  · have hev := createSubmission_events client storage parse (submissionRecord message none today) w hg
    rcases hcs : createSubmission client storage parse (submissionRecord message none today)
      with ⟨ev2, _ | d⟩ <;> rw [hcs] at hev <;> simp only at hev <;> subst hev <;>
      refine ⟨fun fn => by simp, fun bucket fn opts => by simp,
        ⟨submissionRecord message none today, by simp, rfl⟩⟩

/-- Witness for C5 at concrete inputs: no upload events, and the insert record
carries `file_url = null`. -/
theorem c5_no_file_null_url_witness :
    (∀ fn, Event.uploadFileCall fn
        ∉ (handleSubmit okClient demoStorage demoParse (some { id := "u1" }) "hello" none
            "2026-10-11" 0 false false).events)
    ∧ (∀ bucket fn opts, Event.storageUploadCall bucket fn opts
        ∉ (handleSubmit okClient demoStorage demoParse (some { id := "u1" }) "hello" none
            "2026-10-11" 0 false false).events)
    ∧ (∃ rec, Event.createSubmissionCall rec
          ∈ (handleSubmit okClient demoStorage demoParse (some { id := "u1" }) "hello" none
              "2026-10-11" 0 false false).events
        ∧ getField rec "file_url" = some JValue.null) :=
  c5_no_file_null_url okClient demoStorage demoParse { id := "u1" } "hello" "2026-10-11" 0 false false

/-- The generated upload file name contains both the user id and the original
file name as substrings. -/
theorem submitFileName_contains (userId : String) (nowMs : Nat) (fname : String) :
    strContains (submitFileName userId nowMs fname) userId
    ∧ strContains (submitFileName userId nowMs fname) fname := by
  constructor
  · exact ⟨[], ("_" ++ toString nowMs ++ "_" ++ fname).data,
      by simp [submitFileName, strContains, String.data_append]⟩
  · exact ⟨(userId ++ "_" ++ toString nowMs ++ "_").data, [],
      by simp [submitFileName, strContains, String.data_append]⟩

/-- Claim C2: in every submit run with a selected file, any `createSubmission`
call is preceded by an `uploadFile` call; and if the run's `uploadFile` call
rejects then neither `createSubmission` nor any database insert happens in
that run. -/
theorem c2_upload_before_insert (client : Client) (storage : Option String)
    (parse : String → Option User) (user : Option User) (message today : String)
    (nowMs : Nat) (onSuccess b0 : Bool) (f : File) :
    (∀ rec, Event.createSubmissionCall rec
        ∈ (handleSubmit client storage parse user message (some f) today nowMs onSuccess b0).events →
      ∃ fn, List.Sublist [Event.uploadFileCall fn, Event.createSubmissionCall rec]
        (handleSubmit client storage parse user message (some f) today nowMs onSuccess b0).events)
    ∧ (∀ u msg, user = some u →
        (uploadFile client storage parse f (submitFileName u.id nowMs f.name)).2
            = Except.error msg →
        (∀ rec, Event.createSubmissionCall rec
            ∉ (handleSubmit client storage parse user message (some f) today nowMs onSuccess b0).events)
        ∧ (∀ t row, Event.tableInsertCall t row
            ∉ (handleSubmit client storage parse user message (some f) today nowMs onSuccess b0).events)) := by
  constructor
  · rcases user with _ | u
    · intro rec h
      simp [handleSubmit] at h
    · intro rec h
      obtain ⟨rest, hrest⟩ :=
        handleSubmit_head client storage parse u message f today nowMs onSuccess b0
      rw [hrest] at h ⊢
      simp only [List.mem_cons] at h
      rcases h with h | h
      · exact absurd h (by simp)
      · exact ⟨submitFileName u.id nowMs f.name, (List.singleton_sublist.mpr h).cons₂ _⟩
  · intro u msg hueq hup
    subst hueq
    rcases hupv : uploadFile client storage parse f (submitFileName u.id nowMs f.name)
      with ⟨ev, res⟩
    rw [hupv] at hup
    simp only at hup
    subst hup
    have hshape := uploadFile_events_shape client storage parse f (submitFileName u.id nowMs f.name)
    rw [hupv] at hshape
    simp only at hshape
    unfold handleSubmit
    rcases hshape with h | h | h <;> subst h <;>
      exact ⟨fun rec => by simp [hupv], fun t row => by simp [hupv]⟩

/-- Witness for C2: with the failing client the upload rejects and the trace
contains no `createSubmission` call and no insert call. -/
theorem c2_upload_before_insert_witness :
    (∀ rec, Event.createSubmissionCall rec
        ∉ (handleSubmit errClient demoStorage demoParse (some { id := "u1" }) "hello"
            (some solFile) "2026-10-11" 0 false false).events)
    ∧ (∀ t row, Event.tableInsertCall t row
        ∉ (handleSubmit errClient demoStorage demoParse (some { id := "u1" }) "hello"
            (some solFile) "2026-10-11" 0 false false).events) :=
  (c2_upload_before_insert errClient demoStorage demoParse (some { id := "u1" }) "hello"
      "2026-10-11" 0 false false solFile).2 { id := "u1" }
    "Failed to upload file: Bucket not found" rfl rfl

/-- Claim C1: the successful run for user `u1`, message `"hello"` and file
`sol.txt`: the `uploadFile` call uses a name containing both `"u1"` and
`"sol.txt"`; then `createSubmission` is called with the record whose `date` is
today, whose `message` is `"hello"` and whose `file_url` is the upload's URL;
the row is persisted with `user_id = "u1"`; and the run then navigates
to `"/"`. -/
theorem c1_success_flow (client : Client) (storage : Option String)
    (parse : String → Option User) (content today : String) (nowMs : Nat)
    (onSuccess b0 : Bool) (inserted : Record)
    (hu : getCurrentUser storage parse = some { id := "u1" })
    (hup : client.storageUpload "submissions" (submitFileName "u1" nowMs "sol.txt")
        { name := "sol.txt", content := content } { cacheControl := "3600", upsert := false }
        = PResult.ok ())
    (hins : client.tableInsert "submissions"
        (jsSpread (submissionRecord "hello"
            (some (client.storageGetPublicUrl "submissions" (submitFileName "u1" nowMs "sol.txt")))
            today) "user_id" (JValue.str "u1"))
        = PResult.ok inserted) :
    strContains (submitFileName "u1" nowMs "sol.txt") "u1"
    ∧ strContains (submitFileName "u1" nowMs "sol.txt") "sol.txt"
    ∧ List.Sublist
        [Event.uploadFileCall (submitFileName "u1" nowMs "sol.txt"),
         Event.createSubmissionCall (submissionRecord "hello"
            (some (client.storageGetPublicUrl "submissions" (submitFileName "u1" nowMs "sol.txt")))
            today),
         Event.tableInsertCall "submissions"
           (jsSpread (submissionRecord "hello"
              (some (client.storageGetPublicUrl "submissions" (submitFileName "u1" nowMs "sol.txt")))
              today) "user_id" (JValue.str "u1")),
         Event.navigate "/"]
        (handleSubmit client storage parse (some { id := "u1" }) "hello"
          (some { name := "sol.txt", content := content }) today nowMs onSuccess b0).events
    ∧ getField (jsSpread (submissionRecord "hello"
          (some (client.storageGetPublicUrl "submissions" (submitFileName "u1" nowMs "sol.txt")))
          today) "user_id" (JValue.str "u1")) "date" = some (JValue.str today)
    ∧ getField (jsSpread (submissionRecord "hello"
          (some (client.storageGetPublicUrl "submissions" (submitFileName "u1" nowMs "sol.txt")))
          today) "user_id" (JValue.str "u1")) "message" = some (JValue.str "hello")
    ∧ getField (jsSpread (submissionRecord "hello"
          (some (client.storageGetPublicUrl "submissions" (submitFileName "u1" nowMs "sol.txt")))
          today) "user_id" (JValue.str "u1")) "file_url"
        = some (JValue.str (client.storageGetPublicUrl "submissions" (submitFileName "u1" nowMs "sol.txt")))
    ∧ getField (jsSpread (submissionRecord "hello"
          (some (client.storageGetPublicUrl "submissions" (submitFileName "u1" nowMs "sol.txt")))
          today) "user_id" (JValue.str "u1")) "user_id" = some (JValue.str "u1") := by
  have h7 : uploadFile client storage parse { name := "sol.txt", content := content }
      (submitFileName "u1" nowMs "sol.txt")
      = ([Event.storageUploadCall "submissions" (submitFileName "u1" nowMs "sol.txt")
            { cacheControl := "3600", upsert := false },
          Event.getPublicUrlCall "submissions" (submitFileName "u1" nowMs "sol.txt")],
         Except.ok { path := submitFileName "u1" nowMs "sol.txt",
                     url := client.storageGetPublicUrl "submissions"
                              (submitFileName "u1" nowMs "sol.txt") }) := by
    unfold uploadFile
    rw [hu, hup]
  have hcsv : createSubmission client storage parse
      (submissionRecord "hello"
        (some (client.storageGetPublicUrl "submissions" (submitFileName "u1" nowMs "sol.txt")))
        today)
      = ([Event.tableInsertCall "submissions"
            (jsSpread (submissionRecord "hello"
              (some (client.storageGetPublicUrl "submissions" (submitFileName "u1" nowMs "sol.txt")))
              today) "user_id" (JValue.str "u1"))],
         Except.ok inserted) := by
    simp only [createSubmission, hu]
    rw [hins]
  refine ⟨(submitFileName_contains "u1" nowMs "sol.txt").1,
    (submitFileName_contains "u1" nowMs "sol.txt").2, ?_, ?_, ?_, ?_, ?_⟩
  · unfold handleSubmit
    simp only [h7]
    unfold finishSubmit
    simp only [hcsv]
    rcases onSuccess with _ | _ <;>
      simp only [Bool.false_eq_true, if_false, if_true, List.cons_append, List.nil_append,
        List.append_nil, List.singleton_append] <;>
      repeat' first
        | exact List.Sublist.refl _
        | exact List.nil_sublist _
        | apply List.Sublist.cons₂
        | apply List.Sublist.cons
  · rw [getField_jsSpread_ne _ _ _ _ (by decide)]
    simp [submissionRecord, getField]
  · rw [getField_jsSpread_ne _ _ _ _ (by decide)]
    simp [submissionRecord, getField]
  · rw [getField_jsSpread_ne _ _ _ _ (by decide)]
    simp [submissionRecord, getField]
  · exact getField_jsSpread _ _ _

/-- Witness for C1 at the concrete successful run (`nowMs = 0`,
`today = "2026-10-11"`, the all-succeeding client): the trace contains, in
order, the upload call, the `createSubmission` call, the tagged insert and the
navigation home; the inserted row carries `user_id = "u1"`. -/
theorem c1_success_flow_witness :
    List.Sublist
      [Event.uploadFileCall (submitFileName "u1" 0 "sol.txt"),
       Event.createSubmissionCall (submissionRecord "hello"
          (some (okClient.storageGetPublicUrl "submissions" (submitFileName "u1" 0 "sol.txt")))
          "2026-10-11"),
       Event.tableInsertCall "submissions"
         (jsSpread (submissionRecord "hello"
            (some (okClient.storageGetPublicUrl "submissions" (submitFileName "u1" 0 "sol.txt")))
            "2026-10-11") "user_id" (JValue.str "u1")),
       Event.navigate "/"]
      (handleSubmit okClient demoStorage demoParse (some { id := "u1" }) "hello"
        (some { name := "sol.txt", content := "print(42)" }) "2026-10-11" 0 false false).events
    ∧ getField (jsSpread (submissionRecord "hello"
          (some (okClient.storageGetPublicUrl "submissions" (submitFileName "u1" 0 "sol.txt")))
          "2026-10-11") "user_id" (JValue.str "u1")) "user_id" = some (JValue.str "u1") :=
  ⟨(c1_success_flow okClient demoStorage demoParse "print(42)" "2026-10-11" 0 false false
      (jsSpread (submissionRecord "hello"
        (some (okClient.storageGetPublicUrl "submissions" (submitFileName "u1" 0 "sol.txt")))
        "2026-10-11") "user_id" (JValue.str "u1"))
      rfl rfl rfl).2.2.1,
    (c1_success_flow okClient demoStorage demoParse "print(42)" "2026-10-11" 0 false false
      (jsSpread (submissionRecord "hello"
        (some (okClient.storageGetPublicUrl "submissions" (submitFileName "u1" 0 "sol.txt")))
        "2026-10-11") "user_id" (JValue.str "u1"))
      rfl rfl rfl).2.2.2.2.2.2⟩

end CleverQuestions
